import Mathlib

/-
Verification of the network-automation framework's core:
device session management (scripts/device_manager.py),
compliance rule evaluation and scoring (scripts/config_compliance.py),
configuration backup (scripts/config_backup.py) and
deployment (scripts/config_deploy.py).

Shallow embedding conventions:
- Python strings that participate in substring tests are `List Char`;
  names, messages and commands that are only carried along are `String`.
- Calls into external libraries (netmiko connections, `re.findall`,
  the filesystem) are oracles: their outcomes are inputs to the
  embedded functions, with `PyResult.exn e` standing for a raised
  exception whose `str(e)` is `e`.
- Python `round(x, 2)` is modelled on `ℚ` as round-half-to-even at
  two decimal places.
-/

namespace NetAuto

/-- Outcome of a Python call that may raise: `ok v` is a normal return,
`exn e` is a raised exception whose text is `e`. -/
inductive PyResult (α : Type) where
  | ok : α → PyResult α
  | exn : String → PyResult α

/-- Python's substring operator `p in t` on strings. -/
def pyIn (p t : List Char) : Bool := decide (p <:+: t)

/-- Stand-in for the text of a Python `TypeError` raised when `in`,
`re.findall` or similar is applied to `None`. -/
def typeErrorText : String := "argument of type NoneType is not iterable"

/-- Device record from the inventory: the keys of the Python
`device_config` dict that the embedded code reads. -/
structure DeviceConfig where
  host : String
  device_type : List Char
  deriving DecidableEq

/-- Oracle for one established netmiko connection: the outcomes of the
remote calls the code may issue on it. -/
structure Conn where
  sendCommandR : Option String → PyResult (List Char)
  sendConfigSetR : List String → PyResult (List Char)
  saveConfigR : PyResult Unit

/-- State of `DeviceManager` (device_manager.py): the wrapped connection
(`None` until a successful `connect`) and the `connected` flag. -/
structure DeviceManager where
  device_config : DeviceConfig
  connection : Option Conn
  connected : Bool

/-- `DeviceManager.__init__`: no connection, not connected. -/
def DeviceManager.mk0 (cfg : DeviceConfig) : DeviceManager :=
  ⟨cfg, none, false⟩

/-- `DeviceManager.connect`: on success stores the connection and sets
`connected`; on any exception logs, sets `connected = False`, returns
`False`. -/
def DeviceManager.connect (dm : DeviceManager) (r : PyResult Conn) :
    DeviceManager × Bool :=
  match r with
  | .ok c => ({ dm with connection := some c, connected := true }, true)
  | .exn _ => ({ dm with connected := false }, false)

/-- `DeviceManager.disconnect`: if a connection exists, closes it and
clears `connected`; otherwise does nothing. -/
def DeviceManager.disconnect (dm : DeviceManager) : DeviceManager :=
  match dm.connection with
  | some _ => { dm with connected := false }
  | none => dm

/-- `DeviceManager.send_command`: with no connection logs and returns
`None`; otherwise issues the command, converting an exception into
`None`. -/
def DeviceManager.send_command (dm : DeviceManager) (cmd : Option String) :
    Option (List Char) :=
  match dm.connection with
  | none => none
  | some c =>
    match c.sendCommandR cmd with
    | .ok out => some out
    | .exn _ => none

/-- `DeviceManager.send_config`: with no connection logs and returns
`None`; otherwise applies the batch, converting an exception into
`None`. -/
def DeviceManager.send_config (dm : DeviceManager) (cmds : List String) :
    Option (List Char) :=
  match dm.connection with
  | none => none
  | some c =>
    match c.sendConfigSetR cmds with
    | .ok out => some out
    | .exn _ => none

/-- `DeviceManager.get_running_config`: vendor dispatch on
`device_type`, then `send_command`. -/
def DeviceManager.get_running_config (dm : DeviceManager) :
    Option (List Char) :=
  let cmd :=
    if pyIn "cisco".data dm.device_config.device_type then
      "show running-config"
    else if pyIn "juniper".data dm.device_config.device_type then
      "show configuration"
    else if pyIn "arista".data dm.device_config.device_type then
      "show running-config"
    else
      "show running-config"
  dm.send_command (some cmd)

/-- `DeviceManager.save_config`: cisco and the default branch call the
connection's native save (an absent connection raises, caught to
`False`); the juniper branch issues `commit` through `send_command`,
which never raises, so that branch always returns `True`. -/
def DeviceManager.save_config (dm : DeviceManager) : Bool :=
  if pyIn "cisco".data dm.device_config.device_type then
    match dm.connection with
    | none => false
    | some c => match c.saveConfigR with | .ok _ => true | .exn _ => false
  else if pyIn "juniper".data dm.device_config.device_type then
    true
  else
    match dm.connection with
    | none => false
    | some c => match c.saveConfigR with | .ok _ => true | .exn _ => false

/-- Bounded detail payload of a rule verdict: the regex branch stores a
list of matches, the command branch the first 200 characters of the
command output. -/
inductive Detail where
  | matchList : List (List Char) → Detail
  | outputHead : List Char → Detail
  deriving DecidableEq

/-- The per-rule verdict dict built by `ComplianceRule.check`. -/
structure RuleResult where
  rule : String
  description : String
  compliant : Bool
  message : String
  details : Option Detail
  deriving DecidableEq

/-- A loaded compliance rule (`ComplianceRule.__init__`); `pattern` and
`required_value` are `Option` because the loader uses `dict.get`. -/
structure ComplianceRule where
  name : String
  description : String
  rule_type : String
  pattern : Option (List Char)
  required_value : Option (List Char)
  command : Option String

/-- Oracle for `re.findall(pattern, config_text, re.MULTILINE)`:
`exn` covers a malformed pattern or a `None` text. -/
structure RuleEnv where
  findallR : List Char → Option (List Char) → PyResult (List (List Char))

/-- `ComplianceRule.check`: builds the base verdict dict, dispatches on
`rule_type`, and converts any exception raised in the `try` body into a
non-compliant verdict whose message carries the error text.
`config_text` is `Option` because the caller may pass Python `None`
(a failed live retrieval); applying `in` or `re.findall` to `None`
raises a `TypeError`, which the `except` turns into the error verdict. -/
def ComplianceRule.check (r : ComplianceRule) (env : RuleEnv)
    (config_text : Option (List Char)) (dm : Option DeviceManager) :
    RuleResult :=
  let base : RuleResult := ⟨r.name, r.description, false, "", none⟩
  if r.rule_type = "must_contain" then
    match r.pattern, config_text with
    | some p, some t =>
      if pyIn p t then
        { base with compliant := true,
                    message := "Required pattern found: " ++ String.mk p }
      else
        { base with message := "Missing required pattern: " ++ String.mk p }
    | _, _ => { base with message := "Error checking rule: " ++ typeErrorText }
  else if r.rule_type = "must_not_contain" then
    match r.pattern, config_text with
    | some p, some t =>
      if pyIn p t then
        { base with message := "Forbidden pattern found: " ++ String.mk p }
      else
        { base with compliant := true,
                    message := "Forbidden pattern not found (good)" }
    | _, _ => { base with message := "Error checking rule: " ++ typeErrorText }
  else if r.rule_type = "regex" then
    match r.pattern with
    | none => { base with message := "Error checking rule: " ++ typeErrorText }
    | some p =>
      match env.findallR p config_text with
      | .ok ms =>
        if ms.isEmpty then
          { base with message := "Pattern not matched: " ++ String.mk p }
        else
          { base with compliant := true,
                      message := "Pattern matched",
                      details := some (.matchList (ms.take 5)) }
      | .exn e => { base with message := "Error checking rule: " ++ e }
  else if r.rule_type = "command" then
    match dm with
    | some d =>
      match d.send_command r.command, r.required_value with
      | some out, some rv =>
        if pyIn rv out then
          { base with compliant := true,
                      message := "Command validation passed",
                      details := some (.outputHead (out.take 200)) }
        else
          { base with message := "Command validation failed",
                      details := some (.outputHead (out.take 200)) }
      | _, _ => { base with message := "Error checking rule: " ++ typeErrorText }
    | none => { base with message := "No device manager provided for command check" }
  else
    base

/-- One record of the rules JSON file, with the keys
`ComplianceChecker.load_rules` reads (`name`, `description` and `type`
by direct indexing, the rest via `get`). -/
structure RuleRecord where
  name : String
  description : String
  type : String
  pattern : Option (List Char)
  required_value : Option (List Char)
  command : Option String

/-- Construction of one `ComplianceRule` from one record, exactly the
keyword arguments passed inside the loader's loop. -/
def toRule (rd : RuleRecord) : ComplianceRule :=
  ⟨rd.name, rd.description, rd.type, rd.pattern, rd.required_value, rd.command⟩

/-- `ComplianceChecker.load_rules` over already-parsed records: every
record is turned into a rule and appended; there is no validation of
the `type` field. -/
def load_rules (records : List RuleRecord) : List ComplianceRule :=
  records.map toRule

/-- The four rule kinds `ComplianceRule.check` dispatches on. -/
def knownKinds : List String :=
  ["must_contain", "must_not_contain", "regex", "command"]

/-- Round-half-to-even to an integer, the behaviour of Python `round`. -/
def roundHalfEven (q : ℚ) : ℤ :=
  let f : ℤ := ⌊q⌋
  let r : ℚ := q - (f : ℚ)
  if r < 1/2 then f
  else if r > 1/2 then f + 1
  else if f % 2 = 0 then f
  else f + 1

/-- Python `round(q, 2)` on the rational model. -/
def pyRound2 (q : ℚ) : ℚ := ((roundHalfEven (q * 100) : ℤ) : ℚ) / 100

/-- The per-device results dict of `ComplianceChecker.check_device`
(the `timestamp` field, never computed with, is omitted). -/
structure DeviceResults where
  device : String
  total_rules : Nat
  passed : Nat
  failed : Nat
  compliance_score : ℚ
  rule_results : List RuleResult
  deriving DecidableEq

/-- The results dict as first initialised by `check_device`. -/
def initResults (rules : List ComplianceRule) (device : DeviceConfig) :
    DeviceResults :=
  ⟨device.host, rules.length, 0, 0, 0, []⟩

/-- One iteration of the `for rule in self.rules` loop of
`check_device`: evaluate the rule, append its verdict, bump `passed`
or `failed`. -/
def ruleStep (env : RuleEnv) (config_text : Option (List Char))
    (dm : Option DeviceManager) (a : DeviceResults) (r : ComplianceRule) :
    DeviceResults :=
  let rr := r.check env config_text dm
  { a with rule_results := a.rule_results ++ [rr],
           passed := a.passed + (if rr.compliant then 1 else 0),
           failed := a.failed + (if rr.compliant then 0 else 1) }

/-- The whole `for rule in self.rules` loop of `check_device`. -/
def runRules (rules : List ComplianceRule) (env : RuleEnv)
    (config_text : Option (List Char)) (dm : Option DeviceManager)
    (acc : DeviceResults) : DeviceResults :=
  rules.foldl (ruleStep env config_text dm) acc

/-- The score block of `check_device`: with at least one rule, set
`compliance_score` to `round((passed / total_rules) * 100, 2)`;
with zero rules leave the initial `0`. -/
def finishScore (r : DeviceResults) : DeviceResults :=
  if r.total_rules > 0 then
    { r with compliance_score :=
        pyRound2 ((r.passed : ℚ) / (r.total_rules : ℚ) * 100) }
  else r

/-- Oracles consumed by one `check_device` call: the live connect
attempt, and the offline source (`.ok (some t)` is the content of the
latest backup, `.ok none` is "no backup found for this host", `.exn`
is a filesystem error while listing or reading; both of the latter
leave the initial results untouched). -/
structure CheckDeviceEnv where
  connectR : PyResult Conn
  offlineR : PyResult (Option (List Char))

/-- `ComplianceChecker.check_device`: acquire a configuration text
(live session or latest backup), evaluate every rule against it, score,
and in `finally` disconnect any created manager. Returns the results
dict and the manager state at return (`none` when the offline path
created no manager). -/
def ComplianceChecker.check_device (rules : List ComplianceRule)
    (env : RuleEnv) (device : DeviceConfig) (check_live : Bool)
    (de : CheckDeviceEnv) : DeviceResults × Option DeviceManager :=
  let res0 := initResults rules device
  if check_live then
    match (DeviceManager.mk0 device).connect de.connectR with
    | (dm1, true) =>
      (finishScore (runRules rules env dm1.get_running_config (some dm1) res0),
       some dm1.disconnect)
    | (dm1, false) => (res0, some dm1.disconnect)
  else
    match de.offlineR with
    | .ok (some t) => (finishScore (runRules rules env (some t) none res0), none)
    | .ok none => (res0, none)
    | .exn _ => (res0, none)

/-- Whether `check_device` fails to obtain any configuration source:
live connect failed, or the offline lookup produced no text. -/
def configUnavailable (check_live : Bool) (de : CheckDeviceEnv) : Bool :=
  if check_live then
    match de.connectR with | .ok _ => false | .exn _ => true
  else
    match de.offlineR with | .ok (some _) => false | .ok none => true | .exn _ => true

/-- The summary dict of `ComplianceChecker.check_all_devices`. -/
structure ComplianceSummary where
  total_devices : Nat
  device_results : List DeviceResults
  overall_compliance : ℚ
  deriving DecidableEq

/-- `ComplianceChecker.check_all_devices`: check every device in order,
collect the per-device results, accumulate the scores, and with at
least one device set the overall score to the rounded mean. Each
device carries its own oracles. -/
def ComplianceChecker.check_all_devices (rules : List ComplianceRule)
    (env : RuleEnv) (check_live : Bool)
    (devices : List (DeviceConfig × CheckDeviceEnv)) : ComplianceSummary :=
  let results := devices.map (fun d =>
    (ComplianceChecker.check_device rules env d.1 check_live d.2).1)
  let total_score := results.foldl (fun a r => a + r.compliance_score) 0
  if devices.length > 0 then
    ⟨devices.length, results, pyRound2 (total_score / (devices.length : ℚ))⟩
  else
    ⟨devices.length, results, 0⟩

/-- Oracles consumed by one `ConfigBackup.backup_device` call: the
connect attempt and the backup-file write. -/
structure BackupEnv where
  connectR : PyResult Conn
  writeR : PyResult Unit

/-- `ConfigBackup.backup_device`: connect (early `return False` with no
`finally` when it fails), retrieve the running configuration, treat
`None` or empty text as failure, write the file, and disconnect in
`finally` on every path that entered the `try`. Returns the success
flag and the manager state at return. -/
def ConfigBackup.backup_device (device : DeviceConfig) (be : BackupEnv) :
    Bool × DeviceManager :=
  match (DeviceManager.mk0 device).connect be.connectR with
  | (dm1, true) =>
    match dm1.get_running_config with
    | none => (false, dm1.disconnect)
    | some c =>
      if c.isEmpty then (false, dm1.disconnect)
      else
        match be.writeR with
        | .ok _ => (true, dm1.disconnect)
        | .exn _ => (false, dm1.disconnect)
  | (dm1, false) => (false, dm1)

/-- The results dict of `ConfigBackup.backup_all_devices`; `devices`
pairs each host with its recorded status string. -/
structure BackupResults where
  total : Nat
  successful : Nat
  failed : Nat
  devices : List (String × String)
  deriving DecidableEq

/-- Body of the loop in `backup_all_devices` for one device. -/
def backupStep (acc : BackupResults) (d : DeviceConfig × BackupEnv) :
    BackupResults :=
  if (ConfigBackup.backup_device d.1 d.2).1 then
    { acc with successful := acc.successful + 1,
               devices := acc.devices ++ [(d.1.host, "success")] }
  else
    { acc with failed := acc.failed + 1,
               devices := acc.devices ++ [(d.1.host, "failed")] }

/-- `ConfigBackup.backup_all_devices`: `total` is fixed to the inventory
length up front, then every device is backed up in order and tallied. -/
def ConfigBackup.backup_all_devices
    (devices : List (DeviceConfig × BackupEnv)) : BackupResults :=
  devices.foldl backupStep ⟨devices.length, 0, 0, []⟩

/-- `ConfigDeploy.deploy_commands`: connect (early `return False` with
no `finally` when it fails), apply the batch, and on truthy (non-`None`,
non-empty) output call `save_config` — discarding its result — and
return `True`; falsy output returns `False`; `finally` disconnects on
every path that entered the `try`. Returns the reported success flag
and the manager state at return. -/
def ConfigDeploy.deploy_commands (device : DeviceConfig)
    (connectR : PyResult Conn) (commands : List String) :
    Bool × DeviceManager :=
  match (DeviceManager.mk0 device).connect connectR with
  | (dm1, true) =>
    match dm1.send_config commands with
    | some out =>
      if out.isEmpty then (false, dm1.disconnect)
      else
        let _ := dm1.save_config
        (true, dm1.disconnect)
    | none => (false, dm1.disconnect)
  | (dm1, false) => (false, dm1)

/-- Fixture: a findall oracle that always raises, as a malformed regex
pattern would. -/
def envNoFind : RuleEnv :=
  ⟨fun _ _ => PyResult.exn "missing ), unterminated subpattern"⟩

/-- Fixture: a findall oracle that always returns one match. -/
def envOneMatch : RuleEnv :=
  ⟨fun _ _ => PyResult.ok ["ip ssh version 2".data]⟩

/-- Fixture: a connection whose apply step succeeds with non-empty
output but whose native save step raises. -/
def connSaveFail : Conn :=
  ⟨fun _ => PyResult.ok "Clock set".data,
   fun _ => PyResult.ok "applied".data,
   PyResult.exn "write memory failed"⟩

/-- Helper: one loop iteration adds exactly one verdict and bumps
exactly one of the two counters; nothing else changes. -/
theorem ruleStep_stats (env : RuleEnv) (ct : Option (List Char))
    (dm : Option DeviceManager) (acc : DeviceResults) (r : ComplianceRule) :
    (ruleStep env ct dm acc r).passed + (ruleStep env ct dm acc r).failed
        = acc.passed + acc.failed + 1 ∧
    (ruleStep env ct dm acc r).rule_results.length
        = acc.rule_results.length + 1 ∧
    (ruleStep env ct dm acc r).total_rules = acc.total_rules ∧
    (ruleStep env ct dm acc r).device = acc.device ∧
    (ruleStep env ct dm acc r).compliance_score = acc.compliance_score := by
  by_cases h : (r.check env ct dm).compliant <;>
    simp [ruleStep, h] <;> omega

/-- Helper: the rule loop adds one verdict per rule and keeps
`passed + failed` in lockstep with the verdict count; the device name,
`total_rules` and the score are untouched. -/
theorem runRules_stats (env : RuleEnv) (ct : Option (List Char))
    (dm : Option DeviceManager) :
    ∀ (rules : List ComplianceRule) (acc : DeviceResults),
      (runRules rules env ct dm acc).passed
          + (runRules rules env ct dm acc).failed
        = acc.passed + acc.failed + rules.length ∧
      (runRules rules env ct dm acc).rule_results.length
        = acc.rule_results.length + rules.length ∧
      (runRules rules env ct dm acc).total_rules = acc.total_rules ∧
      (runRules rules env ct dm acc).device = acc.device ∧
      (runRules rules env ct dm acc).compliance_score
        = acc.compliance_score := by
  intro rules
  induction rules with
  | nil => intro acc; simp [runRules]
  | cons r rs ih =>
    intro acc
    have hstep := ruleStep_stats env ct dm acc r
    have hrec := ih (ruleStep env ct dm acc r)
    have hrw : runRules (r :: rs) env ct dm acc
        = runRules rs env ct dm (ruleStep env ct dm acc r) := rfl
    rw [hrw]
    obtain ⟨h1, h2, h3, h4, h5⟩ := hstep
    obtain ⟨g1, g2, g3, g4, g5⟩ := hrec
    refine ⟨?_, ?_, ?_, ?_, ?_⟩
    · rw [g1, h1]; simp only [List.length_cons]; omega
    · rw [g2, h2]; simp only [List.length_cons]; omega
    · rw [g3, h3]
    · rw [g4, h4]
    · rw [g5, h5]

/-- Helper: `finishScore` only writes the score field. -/
theorem finishScore_fields (r : DeviceResults) :
    (finishScore r).passed = r.passed ∧
    (finishScore r).failed = r.failed ∧
    (finishScore r).total_rules = r.total_rules ∧
    (finishScore r).device = r.device ∧
    (finishScore r).rule_results = r.rule_results := by
  unfold finishScore
  split <;> simp

/-- Helper: the score `finishScore` writes, with the zero-rule guard
expressed as an `if`. -/
theorem finishScore_score (r : DeviceResults) :
    (finishScore r).compliance_score =
      if r.total_rules = 0 then r.compliance_score
      else pyRound2 ((r.passed : ℚ) / (r.total_rules : ℚ) * 100) := by
  unfold finishScore
  rcases Nat.eq_zero_or_pos r.total_rules with h | h
  · simp [h]
  · simp [h, Nat.pos_iff_ne_zero.mp h]

/-- Helper: `check_device` either obtained no configuration source and
returns the untouched initial results, or returns the scored outcome of
running every rule against some configuration text. -/
theorem check_device_shape (rules : List ComplianceRule) (env : RuleEnv)
    (device : DeviceConfig) (check_live : Bool) (de : CheckDeviceEnv) :
    (configUnavailable check_live de = true ∧
      (ComplianceChecker.check_device rules env device check_live de).1
        = initResults rules device) ∨
    (configUnavailable check_live de = false ∧
      ∃ ct dmo,
        (ComplianceChecker.check_device rules env device check_live de).1
          = finishScore (runRules rules env ct dmo (initResults rules device))) := by
  unfold ComplianceChecker.check_device configUnavailable
  by_cases hl : check_live
  · cases h : de.connectR with
    | ok c =>
      right
      refine ⟨by simp [hl, h], ?_⟩
      simp only [hl, h, if_true, DeviceManager.mk0, DeviceManager.connect]
      exact ⟨_, _, rfl⟩
    | exn e =>
      left
      simp [hl, h, DeviceManager.mk0, DeviceManager.connect]
  · cases h : de.offlineR with
    | ok o =>
      cases o with
      | some t =>
        right
        refine ⟨by simp [hl, h], ?_⟩
        simp only [hl, h, if_neg, Bool.false_eq_true, if_false]
        exact ⟨_, _, rfl⟩
      | none =>
        left
        simp [hl, h]
    | exn e =>
      left
      simp [hl, h]

/-- Helper: `round(0, 2) = 0`. -/
theorem pyRound2_zero : pyRound2 0 = 0 := by
  norm_num [pyRound2, roundHalfEven]

/-- Helper: consolidated field facts about one `check_device` result:
the fixed `total_rules` and `device` fields, the counter/verdict
balance, and the score formula with its zero-rule guard. -/
theorem check_device_spec (rules : List ComplianceRule) (env : RuleEnv)
    (device : DeviceConfig) (check_live : Bool) (de : CheckDeviceEnv) :
    (ComplianceChecker.check_device rules env device check_live de).1.total_rules
        = rules.length ∧
    (ComplianceChecker.check_device rules env device check_live de).1.device
        = device.host ∧
    (ComplianceChecker.check_device rules env device check_live de).1.passed
        + (ComplianceChecker.check_device rules env device check_live de).1.failed
      = (ComplianceChecker.check_device rules env device check_live de).1.rule_results.length ∧
    (ComplianceChecker.check_device rules env device check_live de).1.compliance_score
      = (if rules.length = 0 then 0
         else pyRound2
           (100 * ((ComplianceChecker.check_device rules env device check_live de).1.passed : ℚ)
             / (rules.length : ℚ))) := by
  rcases check_device_shape rules env device check_live de with ⟨hu, he⟩ | ⟨hu, ct, dmo, he⟩
  · rw [he]
    refine ⟨rfl, rfl, rfl, ?_⟩
    rcases Nat.eq_zero_or_pos rules.length with h | h
    · simp [h, initResults]
    · have hne : rules.length ≠ 0 := Nat.pos_iff_ne_zero.mp h
      simp only [initResults, hne, if_false]
      rw [show ((100 : ℚ) * ((0 : Nat) : ℚ) / (rules.length : ℚ)) = 0 by simp]
      exact pyRound2_zero.symm
  · rw [he]
    obtain ⟨f1, f2, f3, f4, f5⟩ :=
      finishScore_fields (runRules rules env ct dmo (initResults rules device))
    have hs := finishScore_score (runRules rules env ct dmo (initResults rules device))
    obtain ⟨r1, r2, r3, r4, r5⟩ :=
      runRules_stats env ct dmo rules (initResults rules device)
    refine ⟨?_, ?_, ?_, ?_⟩
    · rw [f3, r3]; rfl
    · rw [f4, r4]; rfl
    · rw [f1, f2, f5, r1, r2]
      simp [initResults]
    · rw [hs, f1, r3, r5]
      simp only [initResults]
      rcases Nat.eq_zero_or_pos rules.length with h | h

      · simp [h]
      · have hne : rules.length ≠ 0 := Nat.pos_iff_ne_zero.mp h
        simp only [hne, if_false]
        congr 1
        ring

/-- Helper: the score-accumulating left fold of `check_all_devices`
equals the initial value plus the sum of the scores. -/
theorem foldl_score_sum (l : List DeviceResults) :
    ∀ a : ℚ, l.foldl (fun x r => x + r.compliance_score) a
      = a + (l.map (fun r => r.compliance_score)).sum := by
  induction l with
  | nil => intro a; simp
  | cons x xs ih =>
    intro a
    rw [List.foldl_cons, ih (a + x.compliance_score), List.map_cons,
      List.sum_cons]
    ring

/-- Helper: consolidated facts about one `check_all_devices` summary:
device count, result list, and the rounded-mean overall score with its
zero-device guard. -/
theorem check_all_spec (rules : List ComplianceRule) (env : RuleEnv)
    (check_live : Bool) (devices : List (DeviceConfig × CheckDeviceEnv)) :
    (ComplianceChecker.check_all_devices rules env check_live devices).total_devices
        = devices.length ∧
    (ComplianceChecker.check_all_devices rules env check_live devices).device_results
        = devices.map (fun d =>
            (ComplianceChecker.check_device rules env d.1 check_live d.2).1) ∧
    (ComplianceChecker.check_all_devices rules env check_live devices).overall_compliance
        = (if devices.length = 0 then 0
           else pyRound2
             ((((ComplianceChecker.check_all_devices rules env check_live devices).device_results.map
                  (fun r => r.compliance_score)).sum) / (devices.length : ℚ))) := by
  unfold ComplianceChecker.check_all_devices
  rcases Nat.eq_zero_or_pos devices.length with h | h
  · simp [h]
  · have hne : devices.length ≠ 0 := Nat.pos_iff_ne_zero.mp h
    refine ⟨?_, ?_, ?_⟩
    · simp [h]
    · simp [h]
    · simp only [h, if_true, hne, if_false, gt_iff_lt]
      congr 1
      rw [foldl_score_sum]
      simp

/-- Helper: the backup loop keeps `total` fixed, processes every device
in order recording one outcome each, and tallies every device into
exactly one of the two counters. -/
theorem backupAll_fold :
    ∀ (ds : List (DeviceConfig × BackupEnv)) (acc : BackupResults),
      (ds.foldl backupStep acc).total = acc.total ∧
      (ds.foldl backupStep acc).successful + (ds.foldl backupStep acc).failed
        = acc.successful + acc.failed + ds.length ∧
      (ds.foldl backupStep acc).devices
        = acc.devices ++ ds.map (fun d =>
            (d.1.host,
             if (ConfigBackup.backup_device d.1 d.2).1 then "success"
             else "failed")) := by
  intro ds
  induction ds with
  | nil => intro acc; simp
  | cons d rest ih =>
    intro acc
    have hrec := ih (backupStep acc d)
    obtain ⟨g1, g2, g3⟩ := hrec
    have hstep :
        (backupStep acc d).total = acc.total ∧
        (backupStep acc d).successful + (backupStep acc d).failed
          = acc.successful + acc.failed + 1 ∧
        (backupStep acc d).devices
          = acc.devices ++ [(d.1.host,
              if (ConfigBackup.backup_device d.1 d.2).1 then "success"
              else "failed")] := by
      by_cases hb : (ConfigBackup.backup_device d.1 d.2).1 <;>
        simp [backupStep, hb] <;> omega
    obtain ⟨h1, h2, h3⟩ := hstep
    have hrw : (d :: rest).foldl backupStep acc
        = rest.foldl backupStep (backupStep acc d) := rfl
    rw [hrw]
    refine ⟨?_, ?_, ?_⟩
    · rw [g1, h1]
    · rw [g2, h2]; simp only [List.length_cons]; omega
    · rw [g3, h3]
      simp

/-- C1: for every device the per-device score equals
round(100 × passed_rules / total_rules, 2), an empty rule set yielding
score 0 rather than a division error; across a run the overall score is
round(mean of the per-device scores, 2), and a device whose
configuration could not be obtained (live connect failed, or no backup
available) scores 0 while still being one of the results the mean is
taken over. -/
theorem c1_compliance_scoring (rules : List ComplianceRule) (env : RuleEnv)
    (check_live : Bool) (devices : List (DeviceConfig × CheckDeviceEnv))
    (d : DeviceConfig) (de : CheckDeviceEnv) (emsg : String)
    (cR : PyResult Conn) (offR : PyResult (Option (List Char))) :
    (ComplianceChecker.check_device rules env d check_live de).1.compliance_score
      = (if rules.length = 0 then 0
         else pyRound2
           (100 * ((ComplianceChecker.check_device rules env d check_live de).1.passed : ℚ)
             / (rules.length : ℚ))) ∧
    (ComplianceChecker.check_device rules env d true ⟨.exn emsg, offR⟩).1.compliance_score
      = 0 ∧
    (ComplianceChecker.check_device rules env d false ⟨cR, .ok none⟩).1.compliance_score
      = 0 ∧
    (ComplianceChecker.check_all_devices rules env check_live devices).device_results
      = devices.map (fun x =>
          (ComplianceChecker.check_device rules env x.1 check_live x.2).1) ∧
    (ComplianceChecker.check_all_devices rules env check_live devices).total_devices
      = devices.length ∧
    (ComplianceChecker.check_all_devices rules env check_live devices).overall_compliance
      = (if devices.length = 0 then 0
         else pyRound2
           ((((ComplianceChecker.check_all_devices rules env check_live devices).device_results.map
               (fun r => r.compliance_score)).sum) / (devices.length : ℚ))) := by
  obtain ⟨a1, a2, a3⟩ := check_all_spec rules env check_live devices
  obtain ⟨_, _, _, s4⟩ := check_device_spec rules env d check_live de
  refine ⟨s4, ?_, ?_, a2, a1, a3⟩
  · rcases check_device_shape rules env d true ⟨.exn emsg, offR⟩ with
      ⟨_, he⟩ | ⟨hu, _, _, _⟩
    · rw [he]; rfl
    · exact absurd hu (by simp [configUnavailable])
  · rcases check_device_shape rules env d false ⟨cR, .ok none⟩ with
      ⟨_, he⟩ | ⟨hu, _, _, _⟩
    · rw [he]; rfl
    · exact absurd hu (by simp [configUnavailable])

/-- C2: every input device is processed and recorded: the compliance
summary holds exactly the per-device result of every input device in
input order, with `total_devices` equal to the input length; the backup
summary likewise records one outcome per input device in input order,
its `total` equals the input length, and successful + failed sum to the
total. Each device's outcome is a function of that device's own data
alone, so a failure on one device cannot affect any other. -/
theorem c2_orchestrator_accounting (rules : List ComplianceRule)
    (env : RuleEnv) (check_live : Bool)
    (devices : List (DeviceConfig × CheckDeviceEnv))
    (bdevices : List (DeviceConfig × BackupEnv)) :
    (ComplianceChecker.check_all_devices rules env check_live devices).device_results
      = devices.map (fun d =>
          (ComplianceChecker.check_device rules env d.1 check_live d.2).1) ∧
    (ComplianceChecker.check_all_devices rules env check_live devices).total_devices
      = devices.length ∧
    (ConfigBackup.backup_all_devices bdevices).total = bdevices.length ∧
    (ConfigBackup.backup_all_devices bdevices).successful
        + (ConfigBackup.backup_all_devices bdevices).failed
      = (ConfigBackup.backup_all_devices bdevices).total ∧
    (ConfigBackup.backup_all_devices bdevices).devices
      = bdevices.map (fun d =>
          (d.1.host,
           if (ConfigBackup.backup_device d.1 d.2).1 then "success"
           else "failed")) := by
  obtain ⟨a1, a2, _⟩ := check_all_spec rules env check_live devices
  obtain ⟨b1, b2, b3⟩ := backupAll_fold bdevices ⟨bdevices.length, 0, 0, []⟩
  have e : ConfigBackup.backup_all_devices bdevices
      = bdevices.foldl backupStep ⟨bdevices.length, 0, 0, []⟩ := rfl
  refine ⟨a2, a1, ?_, ?_, ?_⟩
  · rw [e, b1]
  · rw [e, b2, b1]
    simp
  · rw [e, b3]
    simp

/-- C3: on every exit path of a per-device operation — compliance
check, deploy, backup; success, returned failure, or an exception
converted by the operation — the session owned by the operation is in
the disconnected state when the operation returns. -/
theorem c3_session_release (rules : List ComplianceRule) (env : RuleEnv)
    (device : DeviceConfig) (check_live : Bool) (de : CheckDeviceEnv)
    (device2 : DeviceConfig) (connectR : PyResult Conn)
    (commands : List String) (device3 : DeviceConfig) (be : BackupEnv) :
    ((ComplianceChecker.check_device rules env device check_live de).2.all
        (fun dm => !dm.connected) = true) ∧
    ((ConfigDeploy.deploy_commands device2 connectR commands).2.connected
        = false) ∧
    ((ConfigBackup.backup_device device3 be).2.connected = false) := by
  refine ⟨?_, ?_, ?_⟩
  · unfold ComplianceChecker.check_device
    by_cases hl : check_live
    · cases h : de.connectR with
      | ok c =>
        simp [hl, h, DeviceManager.mk0, DeviceManager.connect,
          DeviceManager.disconnect, Option.all]
      | exn e =>
        simp [hl, h, DeviceManager.mk0, DeviceManager.connect,
          DeviceManager.disconnect, Option.all]
    · cases h : de.offlineR with
      | ok o => cases o <;> simp [hl, h, Option.all]
      | exn e => simp [hl, h, Option.all]
  · unfold ConfigDeploy.deploy_commands
    cases h : connectR with
    | ok c =>
      simp only [DeviceManager.mk0, DeviceManager.connect]
      cases hs : DeviceManager.send_config ⟨device2, some c, true⟩ commands with
      | some out =>
        by_cases hout : out.isEmpty <;>
          simp [hs, hout, DeviceManager.disconnect]
      | none => simp [hs, DeviceManager.disconnect]
    | exn e => simp [DeviceManager.mk0, DeviceManager.connect]
  · unfold ConfigBackup.backup_device
    cases h : be.connectR with
    | ok c =>
      simp only [DeviceManager.mk0, DeviceManager.connect]
      cases hg : DeviceManager.get_running_config ⟨device3, some c, true⟩ with
      | some out =>
        by_cases hout : out.isEmpty
        · simp [hg, hout, DeviceManager.disconnect]
        · cases hw : be.writeR <;>
            simp [hg, hout, hw, DeviceManager.disconnect]
      | none => simp [hg, DeviceManager.disconnect]
    | exn e => simp [DeviceManager.mk0, DeviceManager.connect]

/-- C4: rule evaluation is total — every evaluation produces a verdict
naming the rule; a command-kind rule evaluated with no live session
produces a non-compliant verdict with an explanatory message; an
internal fault during evaluation (e.g. a malformed regex) is caught at
the rule boundary and converted into a non-compliant verdict carrying
the error text as its message. -/
theorem c4_rule_evaluation_total (r : ComplianceRule) (env : RuleEnv)
    (t : Option (List Char)) (dm : Option DeviceManager) (p : List Char)
    (e : String) :
    ((r.check env t dm).rule = r.name ∧
     (r.check env t dm).description = r.description) ∧
    (r.rule_type = "command" →
      (r.check env t none).compliant = false ∧
      (r.check env t none).message
        = "No device manager provided for command check") ∧
    (r.rule_type = "regex" → r.pattern = some p →
      env.findallR p t = .exn e →
      (r.check env t dm).compliant = false ∧
      (r.check env t dm).message = "Error checking rule: " ++ e) := by
  refine ⟨?_, ?_, ?_⟩
  · simp only [ComplianceRule.check]
    repeat' split
    all_goals exact ⟨rfl, rfl⟩
  · intro hc
    simp [ComplianceRule.check, hc]
  · intro hr hp hf
    simp [ComplianceRule.check, hr, hp, hf]

/-- Witness for C4: a command rule with no device manager reports the
explanatory message, and a regex rule whose findall raises reports the
error text. -/
theorem c4_rule_evaluation_total_witness :
    (ComplianceRule.check
        ⟨"r1", "d1", "command", none, some "ok".data, some "show clock"⟩
        envNoFind (some "conf".data) none).message
      = "No device manager provided for command check" ∧
    (ComplianceRule.check
        ⟨"r2", "d2", "regex", some "(".data, none, none⟩
        envNoFind (some "conf".data) none).message
      = "Error checking rule: missing ), unterminated subpattern" := by
  have h1 := c4_rule_evaluation_total
    ⟨"r1", "d1", "command", none, some "ok".data, some "show clock"⟩
    envNoFind (some "conf".data) none "(".data "x"
  have h2 := c4_rule_evaluation_total
    ⟨"r2", "d2", "regex", some "(".data, none, none⟩
    envNoFind (some "conf".data) none "(".data
    "missing ), unterminated subpattern"
  exact ⟨(h1.2.1 rfl).2, (h2.2.2 rfl rfl rfl).2⟩

/-- C5: a must_contain rule is compliant iff the pattern occurs
verbatim as a (case-sensitive) substring of the configuration text; a
must_not_contain rule is compliant iff it does not occur. -/
theorem c5_containment_semantics (nm ds : String) (p t : List Char)
    (rv : Option (List Char)) (cmd : Option String) (env : RuleEnv)
    (dm : Option DeviceManager) :
    ((ComplianceRule.check ⟨nm, ds, "must_contain", some p, rv, cmd⟩
        env (some t) dm).compliant = true ↔ p <:+: t) ∧
    ((ComplianceRule.check ⟨nm, ds, "must_not_contain", some p, rv, cmd⟩
        env (some t) dm).compliant = true ↔ ¬ (p <:+: t)) := by
  constructor
  · by_cases h : p <:+: t <;> simp [ComplianceRule.check, pyIn, h]
  · by_cases h : p <:+: t <;> simp [ComplianceRule.check, pyIn, h]

/-- Witness for C5: "ntp server" is found in a text containing it, and
"transport input telnet" is absent from that text. -/
theorem c5_containment_semantics_witness :
    (ComplianceRule.check
        ⟨"NTP Server Configured", "Verify NTP server is configured",
         "must_contain", some "ntp server".data, none, none⟩
        envNoFind (some "ntp server 10.0.0.1\n".data) none).compliant
      = true ∧
    (ComplianceRule.check
        ⟨"No Telnet", "Verify telnet is not enabled",
         "must_not_contain", some "transport input telnet".data, none, none⟩
        envNoFind (some "ntp server 10.0.0.1\n".data) none).compliant
      = true := by
  have h1 := c5_containment_semantics "NTP Server Configured"
    "Verify NTP server is configured" "ntp server".data
    "ntp server 10.0.0.1\n".data none none envNoFind none
  have h2 := c5_containment_semantics "No Telnet"
    "Verify telnet is not enabled" "transport input telnet".data
    "ntp server 10.0.0.1\n".data none none envNoFind none
  exact ⟨h1.1.mpr (by decide), h2.2.mpr (by decide)⟩

/-- C6: a regex rule is compliant iff findall produced at least one
match; when compliant the detail payload holds the first matches, at
most 5 of them; on non-match the verdict is non-compliant and carries
no evidence. -/
theorem c6_regex_semantics (nm ds : String) (p : List Char)
    (rv : Option (List Char)) (cmd : Option String) (env : RuleEnv)
    (t : Option (List Char)) (dm : Option DeviceManager)
    (ms : List (List Char)) (h : env.findallR p t = .ok ms) :
    ((ComplianceRule.check ⟨nm, ds, "regex", some p, rv, cmd⟩
        env t dm).compliant = true ↔ ms ≠ []) ∧
    (ms ≠ [] →
      (ComplianceRule.check ⟨nm, ds, "regex", some p, rv, cmd⟩
          env t dm).details = some (Detail.matchList (ms.take 5)) ∧
      (ms.take 5).length ≤ 5 ∧ ms.take 5 <+: ms) ∧
    (ms = [] →
      (ComplianceRule.check ⟨nm, ds, "regex", some p, rv, cmd⟩
          env t dm).compliant = false ∧
      (ComplianceRule.check ⟨nm, ds, "regex", some p, rv, cmd⟩
          env t dm).details = none) := by
  cases ms with
  | nil =>
    refine ⟨?_, ?_, ?_⟩
    · simp [ComplianceRule.check, h]
    · intro hne; exact absurd rfl hne
    · intro _; simp [ComplianceRule.check, h]
  | cons m rest =>
    refine ⟨?_, ?_, ?_⟩
    · simp [ComplianceRule.check, h]
    · intro _
      refine ⟨by simp [ComplianceRule.check, h], ?_, List.take_prefix 5 _⟩
      simp [List.length_take]
    · intro hc; simp at hc

/-- Witness for C6: with an oracle returning one match, the regex rule
is compliant and its details carry that match. -/
theorem c6_regex_semantics_witness :
    (ComplianceRule.check
        ⟨"SSH Version 2", "Ensure SSH version 2 is enabled", "regex",
         some "ip ssh version 2".data, none, none⟩
        envOneMatch (some "line vty\nip ssh version 2\n".data) none).compliant
      = true ∧
    (ComplianceRule.check
        ⟨"SSH Version 2", "Ensure SSH version 2 is enabled", "regex",
         some "ip ssh version 2".data, none, none⟩
        envOneMatch (some "line vty\nip ssh version 2\n".data) none).details
      = some (Detail.matchList ["ip ssh version 2".data]) := by
  have h := c6_regex_semantics "SSH Version 2"
    "Ensure SSH version 2 is enabled" "ip ssh version 2".data none none
    envOneMatch (some "line vty\nip ssh version 2\n".data) none
    ["ip ssh version 2".data] rfl
  exact ⟨h.1.mpr (by simp), (h.2.1 (by simp)).1⟩

/-- C7 counterexample: a rule record whose kind is none of the four
known kinds is accepted verbatim into the active rule list by the
loader, not rejected at load time. -/
theorem c7_counterexample :
    load_rules
        [⟨"Bad Rule", "unrecognized kind slips through", "bogus_kind",
          none, none, none⟩]
      = [⟨"Bad Rule", "unrecognized kind slips through", "bogus_kind",
          none, none, none⟩] ∧
    ("bogus_kind" ∉ knownKinds) := by
  exact ⟨rfl, by decide⟩

/-- C7 amended: rule-set loading performs no kind validation — every
record is converted into a rule, unchanged and in order, so an
unrecognized kind is silently accepted into the active rule list; such
a rule is only neutralized at evaluation time, where it yields a
non-compliant verdict with an empty message. -/
theorem c7_amended_load_accepts_any_kind (records : List RuleRecord)
    (r : ComplianceRule) (env : RuleEnv) (t : Option (List Char))
    (dm : Option DeviceManager) (h : r.rule_type ∉ knownKinds) :
    load_rules records = records.map toRule ∧
    r.check env t dm = ⟨r.name, r.description, false, "", none⟩ := by
  refine ⟨rfl, ?_⟩
  simp only [knownKinds, List.mem_cons, List.not_mem_nil, or_false,
    not_or] at h
  obtain ⟨h1, h2, h3, h4⟩ := h
  simp [ComplianceRule.check, h1, h2, h3, h4]

/-- Witness for C7's amended claim at a concrete unknown-kind record. -/
theorem c7_amended_witness :
    load_rules [⟨"Bad Rule", "d", "bogus2", none, none, none⟩]
      = [⟨"Bad Rule", "d", "bogus2", none, none, none⟩] ∧
    ComplianceRule.check ⟨"Bad Rule", "d", "bogus2", none, none, none⟩
        envNoFind (some "conf".data) none
      = ⟨"Bad Rule", "d", false, "", none⟩ := by
  have h := c7_amended_load_accepts_any_kind
    [⟨"Bad Rule", "d", "bogus2", none, none, none⟩]
    ⟨"Bad Rule", "d", "bogus2", none, none, none⟩
    envNoFind (some "conf".data) none (by decide)
  exact ⟨h.1, h.2⟩

/-- C8 counterexample: sending a command on a session that was never
connected does not fail fast — `send_command` returns the soft null
result `None` and control returns normally to the caller. -/
theorem c8_counterexample :
    (DeviceManager.mk0 ⟨"192.168.1.1", "cisco_ios".data⟩).send_command
        (some "show clock") = none := rfl

/-- C8 amended: invoking `send_command` or `send_config` on a session
that was never connected (or whose connect attempt failed) is not a
hard failure: the call logs, returns the soft null result `None`
exactly once, and is not retried. -/
theorem c8_amended_soft_none (cfg : DeviceConfig) (cmd : Option String)
    (cmds : List String) (e : String) :
    (DeviceManager.mk0 cfg).send_command cmd = none ∧
    (DeviceManager.mk0 cfg).send_config cmds = none ∧
    ((DeviceManager.mk0 cfg).connect (.exn e)).1.send_command cmd = none ∧
    ((DeviceManager.mk0 cfg).connect (.exn e)).1.send_config cmds = none :=
  ⟨rfl, rfl, rfl, rfl⟩

/-- C9 counterexample: with a connection whose apply step returns
non-empty output but whose native save step raises, `deploy_commands`
still reports plain success even though `save_config` on that very
session reports failure. -/
theorem c9_counterexample :
    (ConfigDeploy.deploy_commands ⟨"10.0.0.1", "cisco_ios".data⟩
        (.ok connSaveFail) ["ntp server 10.0.0.5"]).1 = true ∧
    (DeviceManager.mk ⟨"10.0.0.1", "cisco_ios".data⟩ (some connSaveFail)
        true).save_config = false := by
  exact ⟨rfl, rfl⟩

/-- C9 amended: when the configuration batch applies with truthy
(non-empty) output, `deploy_commands` returns success unconditionally —
`save_config` is invoked but its result is discarded — so a failed
save/commit step is only logged, not distinguished from full success
in the deploy outcome. -/
theorem c9_amended_persist_ignored (device : DeviceConfig) (c : Conn)
    (commands : List String) (out : List Char)
    (h1 : c.sendConfigSetR commands = .ok out)
    (h2 : out.isEmpty = false) :
    (ConfigDeploy.deploy_commands device (.ok c) commands).1 = true := by
  unfold ConfigDeploy.deploy_commands
  simp [DeviceManager.mk0, DeviceManager.connect, DeviceManager.send_config,
    h1, h2]

/-- Witness for C9's amended claim at a concrete save-failing
connection. -/
theorem c9_amended_witness :
    (ConfigDeploy.deploy_commands ⟨"10.0.0.2", "arista_eos".data⟩
        (.ok connSaveFail) ["vlan 10"]).1 = true :=
  c9_amended_persist_ignored ⟨"10.0.0.2", "arista_eos".data⟩ connSaveFail
    ["vlan 10"] "applied".data rfl rfl

/-- C10: every per-device result satisfies passed + failed = number of
recorded verdicts; when no configuration source could be obtained
(live connect failed, or no stored backup exists for the host) the
returned result is the untouched initial dict — empty verdict list,
passed = failed = 0, compliance_score = 0 — while its total_rules field
still equals the number of loaded rules. -/
theorem c10_result_shape (rules : List ComplianceRule) (env : RuleEnv)
    (device : DeviceConfig) (check_live : Bool) (de : CheckDeviceEnv)
    (emsg : String) (cR : PyResult Conn)
    (offR : PyResult (Option (List Char))) :
    (ComplianceChecker.check_device rules env device check_live de).1.passed
        + (ComplianceChecker.check_device rules env device check_live de).1.failed
      = (ComplianceChecker.check_device rules env device check_live de).1.rule_results.length ∧
    (ComplianceChecker.check_device rules env device check_live de).1.total_rules
      = rules.length ∧
    (ComplianceChecker.check_device rules env device true ⟨.exn emsg, offR⟩).1
      = initResults rules device ∧
    (ComplianceChecker.check_device rules env device false ⟨cR, .ok none⟩).1
      = initResults rules device ∧
    (initResults rules device).rule_results = [] ∧
    (initResults rules device).passed = 0 ∧
    (initResults rules device).failed = 0 ∧
    (initResults rules device).compliance_score = 0 ∧
    (initResults rules device).total_rules = rules.length := by
  obtain ⟨s1, _, s3, _⟩ := check_device_spec rules env device check_live de
  refine ⟨s3, s1, ?_, ?_, rfl, rfl, rfl, rfl, rfl⟩
  · rcases check_device_shape rules env device true ⟨.exn emsg, offR⟩ with
      ⟨_, he⟩ | ⟨hu, _, _, _⟩
    · exact he
    · exact absurd hu (by simp [configUnavailable])
  · rcases check_device_shape rules env device false ⟨cR, .ok none⟩ with
      ⟨_, he⟩ | ⟨hu, _, _, _⟩
    · exact he
    · exact absurd hu (by simp [configUnavailable])

end NetAuto
